import Mathlib

/-!
Verification development for the TimeTrackPro task-lifecycle code.

This file gives a shallow embedding of the task-lifecycle logic of the
repository's Python sources and proves the spec's claims about it.

Modelling conventions:
* Timestamps (`datetime.datetime.now()` values) are rationals counting
  seconds; each textual call to `now()` in the Python source becomes one
  explicit timestamp parameter of the embedded function (so functions that
  sample the clock twice take two parameters).
* Python `round(x, 2)` on (idealized, exact) floats is modelled by
  `pyRound2`, rounding to two decimals with ties to even.
* `tkinter` message boxes and `print` error logs are modelled as an
  append-only list of `AppMsg` events; GUI layout is ignored.
* A `threading.Timer` armed at time `t` with delay 7200 is modelled as a
  live timer record that will fire at `t + 7200`; the set of outstanding
  (started, not cancelled, not yet fired) timers is carried explicitly as a
  list so that claims about timer accumulation are about real OS timers,
  not just about the single Python reference `self.auto_close_timer`.
* Persistence sinks (CSV appends, database writes) are modelled as lists;
  a Boolean `_ok` parameter says whether the fallible write succeeds
  (`True` = the `try:` body runs normally, `False` = the `except` branch).
-/

/-- Integer nearest rounding with ties to even, on rationals. -/
def roundHalfEven (x : ℚ) : ℤ :=
  let f : ℤ := ⌊x⌋
  let r : ℚ := x - f
  if r < 1/2 then f
  else if 1/2 < r then f + 1
  else if f % 2 = 0 then f else f + 1

/-- Python `round(x, 2)`: round to two decimal places, ties to even
(binary-float representation noise is idealized away). -/
def pyRound2 (x : ℚ) : ℚ := (roundHalfEven (100 * x) : ℚ) / 100

/-- Python `str.strip()`: drop leading and trailing whitespace. (Defined by
structural recursion over the character list so that it evaluates inside
the kernel.) -/
def pyStrip (s : String) : String :=
  ⟨((s.data.dropWhile Char.isWhitespace).reverse.dropWhile Char.isWhitespace).reverse⟩

/-- Python truthiness of an optional string (`None` and `""` are falsy),
as used in guards like `if self.current_task:`. -/
def strTruthy : Option String → Bool
  | none => false
  | some s => !s.isEmpty

/-- Message-box dialogs and error prints emitted by the GUI code. -/
inductive AppMsg where
  /-- `messagebox.showwarning("Warning", "Please enter a task description.")` -/
  | warn_empty_description
  /-- `messagebox.showinfo("Info", "No active task to stop.")` -/
  | info_no_active_task
  /-- `messagebox.showerror("Error", "Failed to save task to CSV: ...")` -/
  | error_csv_write
  /-- `messagebox.showinfo("Auto-Close", ...)` after an automatic close -/
  | info_auto_closed
  /-- `print("Error updating task in database: ...")` in the enhanced variant -/
  | error_db_end_task
  /-- the "Task Resumed" notification of the enhanced variant -/
  | info_task_resumed
  /-- `messagebox.showerror("Error", "Failed to delete category: ...")` -/
  | error_delete_category
deriving DecidableEq

/-- An outstanding one-shot `threading.Timer`: `fires_at` is the arming
instant plus the 7200-second delay. -/
structure Timer where
  timer_id : ℕ
  fires_at : ℚ
deriving DecidableEq

namespace MainApp

/-- One row of `time_tracker.csv` as written by `TimeTracker.end_task`
(`src/main.py`): description, start, end, and the rounded duration.
(The formatted date column is a rendering of `start_time` and is omitted.) -/
structure Rec where
  description : String
  start_time : ℚ
  end_time : ℚ
  duration_minutes : ℚ
deriving DecidableEq

/-- The mutable state of `TimeTracker` (`src/main.py`) together with its
persisted CSV rows and the outstanding OS timers. -/
structure TrackerState where
  current_task : Option String
  task_start_time : Option ℚ
  records : List Rec
  auto_close_timer : Option ℕ
  live_timers : List Timer
  next_timer_id : ℕ
  msgs : List AppMsg
deriving DecidableEq

/-- `TimeTracker.end_task` (`src/main.py` lines 190-224): guard on a truthy
current task and start time, compute the rounded duration, append the CSV
row (or show an error dialog if the write fails), clear the current task,
and cancel the auto-close timer. -/
def end_task (s : TrackerState) (end_time : ℚ) (csv_ok : Bool) : TrackerState :=
  match s.current_task, s.task_start_time with
  | some desc, some t0 =>
    if desc.isEmpty then s
    else
      let duration_minutes := pyRound2 ((end_time - t0) / 60)
      let s1 := if csv_ok then
          { s with records := s.records ++ [⟨desc, t0, end_time, duration_minutes⟩] }
        else
          { s with msgs := s.msgs ++ [AppMsg.error_csv_write] }
      let s2 := { s1 with current_task := none, task_start_time := none }
      match s2.auto_close_timer with
      | some i =>
        { s2 with auto_close_timer := none,
                  live_timers := s2.live_timers.filter fun t => t.timer_id != i }
      | none => s2
  | _, _ => s

/-- `TimeTracker.reset_auto_close_timer` (`src/main.py` lines 226-233):
cancel the referenced timer if any, then, if a task is current, arm a fresh
single-shot timer for 7200 seconds from `now`. -/
def reset_auto_close_timer (s : TrackerState) (now : ℚ) : TrackerState :=
  let s1 := match s.auto_close_timer with
    | some i => { s with live_timers := s.live_timers.filter fun t => t.timer_id != i }
    | none => s
  if strTruthy s1.current_task then
    { s1 with auto_close_timer := some s1.next_timer_id,
              live_timers := s1.live_timers ++ [⟨s1.next_timer_id, now + 7200⟩],
              next_timer_id := s1.next_timer_id + 1 }
  else s1

/-- `TimeTracker.start_new_task` (`src/main.py` lines 150-178): trim the
entry text, warn and bail out if it is empty, otherwise end the previous
task at the same `now` instant, install the new current task, and rearm the
auto-close countdown. -/
def start_new_task (s : TrackerState) (desc_input : String) (now : ℚ) (csv_ok : Bool) :
    TrackerState :=
  let task_description := pyStrip desc_input
  if task_description.isEmpty then
    { s with msgs := s.msgs ++ [AppMsg.warn_empty_description] }
  else
    let s1 := if strTruthy s.current_task && s.task_start_time.isSome then
        end_task s now csv_ok
      else s
    let s2 := { s1 with current_task := some task_description, task_start_time := some now }
    reset_auto_close_timer s2 now

/-- `TimeTracker.stop_current_task` (`src/main.py` lines 180-188). -/
def stop_current_task (s : TrackerState) (now : ℚ) (csv_ok : Bool) : TrackerState :=
  if strTruthy s.current_task then end_task s now csv_ok
  else { s with msgs := s.msgs ++ [AppMsg.info_no_active_task] }

/-- `TimeTracker.auto_close_task` (`src/main.py` lines 235-241): the timer
callback; `now` is the instant the countdown fires. -/
def auto_close_task (s : TrackerState) (now : ℚ) (csv_ok : Bool) : TrackerState :=
  if strTruthy s.current_task then
    let s1 := end_task s now csv_ok
    { s1 with msgs := s1.msgs ++ [AppMsg.info_auto_closed] }
  else s

/-- The operations a user or the firing countdown can perform on the
lifecycle controller of `src/main.py`. -/
inductive MOp where
  | start (desc : String) (now : ℚ) (csv_ok : Bool)
  | stop (now : ℚ) (csv_ok : Bool)
  | fire (now : ℚ) (csv_ok : Bool)

/-- Apply one operation. -/
def applyOp (s : TrackerState) : MOp → TrackerState
  | .start d n ok => start_new_task s d n ok
  | .stop n ok => stop_current_task s n ok
  | .fire n ok => auto_close_task s n ok

/-- Run a sequence of operations. -/
def run (s : TrackerState) : List MOp → TrackerState
  | [] => s
  | op :: ops => run (applyOp s op) ops

/-- Fresh controller state: no current task, no rows, no timers. -/
def init : TrackerState := ⟨none, none, [], none, [], 0, []⟩

/-- Timer well-formedness: the `auto_close_timer` reference accounts for
every outstanding OS timer — no timer reference means no live timer, and a
referenced timer is the single live one. -/
def TimerInv (s : TrackerState) : Prop :=
  match s.auto_close_timer with
  | none => s.live_timers = []
  | some i => ∃ q, s.live_timers = [⟨i, q⟩]

end MainApp

/-- A row of the `categories` table (`src/models.py`). -/
structure Category where
  id : ℕ
  name : String
  color : String
deriving DecidableEq

namespace ModelsPy

/-- The methods the `DatabaseManager` class actually defines
(`src/models.py` lines 12-293). Attribute lookup of any other name on a
`DatabaseManager` instance raises `AttributeError`. -/
def database_manager_methods : List String :=
  ["get_connection", "initialize_database", "get_categories", "add_category",
   "get_custom_buttons", "add_custom_button", "delete_custom_button",
   "add_task", "end_task", "get_recent_tasks", "get_tasks_by_category",
   "get_last_incomplete_task", "get_task_summary"]

end ModelsPy

namespace EnhancedApp

/-- A row of the `tasks` table (`src/models.py`, `initialize_database`):
`end_time` and `duration_minutes` are NULL while the task is running. -/
structure DbTask where
  id : ℕ
  task_description : String
  category_id : Option ℕ
  start_time : ℚ
  end_time : Option ℚ
  duration_minutes : Option ℚ
deriving DecidableEq

/-- `DatabaseManager.add_task` (`src/models.py` lines 162-177): INSERT a
row with NULL end time; `id` is the fresh serial value. -/
def db_add_task (db : List DbTask) (id : ℕ) (task_description : String)
    (category_id : Option ℕ) (start_time : ℚ) : List DbTask :=
  db ++ [⟨id, task_description, category_id, start_time, none, none⟩]

/-- `DatabaseManager.end_task` (`src/models.py` lines 179-192): UPDATE the
rows whose id matches, setting end time and duration. -/
def db_end_task (db : List DbTask) (task_id : ℕ) (end_time : ℚ)
    (duration_minutes : ℚ) : List DbTask :=
  db.map fun r =>
    if r.id = task_id then
      { r with end_time := some end_time, duration_minutes := some duration_minutes }
    else r

/-- `DatabaseManager.get_last_incomplete_task` (`src/models.py` lines
243-260): the NULL-end row with the greatest `start_time`, if any. -/
def db_get_last_incomplete_task (db : List DbTask) : Option DbTask :=
  (db.filter fun r => r.end_time.isNone).foldl
    (fun acc r =>
      match acc with
      | none => some r
      | some a => if a.start_time < r.start_time then some r else some a)
    none

/-- One row of the enhanced variant's fallback CSV. The source stores the
category's display name looked up from the database; the model records the
category id, which carries the same information. -/
structure ERec where
  description : String
  category_id : Option ℕ
  start_time : ℚ
  end_time : ℚ
  duration_minutes : ℚ
deriving DecidableEq

/-- The mutable state of `EnhancedTimeTracker` (`src/main_enhanced.py`)
together with the `tasks` table, the fallback CSV, and the outstanding OS
timers. The database connection is assumed to be up (`self.db` truthy);
serial row ids are tracked by `next_id`. -/
structure EState where
  current_task : Option String
  current_task_id : Option ℕ
  current_category_id : Option ℕ
  task_start_time : Option ℚ
  db : List DbTask
  next_id : ℕ
  csv : List ERec
  auto_close_timer : Option ℕ
  live_timers : List Timer
  next_timer_id : ℕ
  msgs : List AppMsg
deriving DecidableEq

/-- `EnhancedTimeTracker.end_task` (`src/main_enhanced.py` lines 655-711):
guard on a truthy current task, append the CSV row, UPDATE the database row
of `current_task_id` (on failure only a log line is printed), clear the
current task, and cancel the auto-close timer. `db_ok` tells whether the
database write succeeds; the CSV append is taken to succeed (the CSV
failure path is analyzed on the `src/main.py` model). -/
def end_task (s : EState) (end_time : ℚ) (db_ok : Bool) : EState :=
  match s.current_task, s.task_start_time with
  | some desc, some t0 =>
    if desc.isEmpty then s
    else
      let duration_minutes := pyRound2 ((end_time - t0) / 60)
      let s1 := { s with csv :=
        s.csv ++ [(⟨desc, s.current_category_id, t0, end_time, duration_minutes⟩ : ERec)] }
      let s2 := match s1.current_task_id with
        | some tid =>
          if db_ok then { s1 with db := db_end_task s1.db tid end_time duration_minutes }
          else { s1 with msgs := s1.msgs ++ [AppMsg.error_db_end_task] }
        | none => s1
      let s3 := { s2 with current_task := none, current_task_id := none,
                          current_category_id := none, task_start_time := none }
      match s3.auto_close_timer with
      | some i =>
        { s3 with auto_close_timer := none,
                  live_timers := s3.live_timers.filter fun t => t.timer_id != i }
      | none => s3
  | _, _ => s

/-- `EnhancedTimeTracker.reset_auto_close_timer` (`src/main_enhanced.py`
lines 713-720): identical to the `src/main.py` version — cancel the
referenced timer, then arm a fresh full 7200-second countdown from `now`. -/
def reset_auto_close_timer (s : EState) (now : ℚ) : EState :=
  let s1 := match s.auto_close_timer with
    | some i => { s with live_timers := s.live_timers.filter fun t => t.timer_id != i }
    | none => s
  if strTruthy s1.current_task then
    { s1 with auto_close_timer := some s1.next_timer_id,
              live_timers := s1.live_timers ++ [⟨s1.next_timer_id, now + 7200⟩],
              next_timer_id := s1.next_timer_id + 1 }
  else s1

/-- `EnhancedTimeTracker.start_new_task` (`src/main_enhanced.py` lines
596-643): validate the trimmed description, end the previous task at the
same `now` instant, install the new current task, INSERT the new database
row (on failure `current_task_id` becomes None), and rearm the countdown.
The category combo-box lookup is modelled by passing the category id. -/
def start_new_task (s : EState) (desc_input : String) (category_id : Option ℕ)
    (now : ℚ) (db_ok : Bool) : EState :=
  let task_description := pyStrip desc_input
  if task_description.isEmpty then
    { s with msgs := s.msgs ++ [AppMsg.warn_empty_description] }
  else
    let s1 := if strTruthy s.current_task && s.task_start_time.isSome then
        end_task s now db_ok
      else s
    let s2 := { s1 with current_task := some task_description,
                        current_category_id := category_id,
                        task_start_time := some now }
    let s3 := if db_ok then
        { s2 with db := db_add_task s2.db s2.next_id task_description category_id now,
                  current_task_id := some s2.next_id,
                  next_id := s2.next_id + 1 }
      else { s2 with current_task_id := none }
    reset_auto_close_timer s3 now

/-- `EnhancedTimeTracker.stop_current_task` (`src/main_enhanced.py` lines
645-653). -/
def stop_current_task (s : EState) (now : ℚ) (db_ok : Bool) : EState :=
  if strTruthy s.current_task then end_task s now db_ok
  else { s with msgs := s.msgs ++ [AppMsg.info_no_active_task] }

/-- `EnhancedTimeTracker.auto_close_task` (`src/main_enhanced.py` lines
722-728). -/
def auto_close_task (s : EState) (now : ℚ) (db_ok : Bool) : EState :=
  if strTruthy s.current_task then
    let s1 := end_task s now db_ok
    { s1 with msgs := s1.msgs ++ [AppMsg.info_auto_closed] }
  else s

/-- `EnhancedTimeTracker.resume_task` (`src/main_enhanced.py` lines
905-946): adopt the stored task as current (description, start time, row
id, category), then `reset_auto_close_timer` — which arms a full fresh
7200-second countdown from `now` — and show the "Task Resumed" note. -/
def resume_task (s : EState) (task_data : DbTask) (now : ℚ) : EState :=
  let s1 := { s with current_task := some task_data.task_description,
                     task_start_time := some task_data.start_time,
                     current_task_id := some task_data.id,
                     current_category_id := task_data.category_id }
  let s2 := reset_auto_close_timer s1 now
  { s2 with msgs := s2.msgs ++ [AppMsg.info_task_resumed] }

/-- `EnhancedTimeTracker.check_resumable_task` (`src/main_enhanced.py`
lines 830-855), database path: fetch the last NULL-end row; if it started
less than 7200 seconds ago it is resumed, otherwise nothing at all happens
(the stale row is left open — it is not closed, with a synthetic end time
or otherwise). The CSV fallback branch (db unavailable) is not modelled. -/
def check_resumable_task (s : EState) (now : ℚ) : EState :=
  match db_get_last_incomplete_task s.db with
  | some last_task =>
    if now - last_task.start_time < 7200 then resume_task s last_task now else s
  | none => s

/-- `EnhancedTimeTracker.delete_category` (`src/main_enhanced.py` lines
545-571), acting on the categories table: the confirmed branch calls
`self.db.delete_category(category_id)`, but `DatabaseManager` defines no
such method, so attribute lookup raises `AttributeError`, the `except`
branch shows an error dialog, and no row is touched. The returned Boolean
reports whether the error dialog was shown. -/
def delete_category (categories : List Category) (category_id : ℕ) :
    List Category × Bool :=
  if ModelsPy.database_manager_methods.contains "delete_category" then
    -- hypothetical success path; unreachable since the method does not exist
    (categories.filter fun c => c.id != category_id, false)
  else
    (categories, true)

/-- The operations of the enhanced (database-backed) lifecycle controller.
Each fallible operation carries the outcome of its database write
(`db_ok = false` means the write raises and the source's `except` branch
runs); `resume` performs no fallible write. -/
inductive EOp where
  | start (desc : String) (category_id : Option ℕ) (now : ℚ) (db_ok : Bool)
  | stop (now : ℚ) (db_ok : Bool)
  | fire (now : ℚ) (db_ok : Bool)
  | resume (now : ℚ)

/-- Apply one operation. -/
def applyOp (s : EState) : EOp → EState
  | .start d c n ok => start_new_task s d c n ok
  | .stop n ok => stop_current_task s n ok
  | .fire n ok => auto_close_task s n ok
  | .resume n => check_resumable_task s n

/-- Whether an operation's fallible persistence write succeeds. -/
def opOk : EOp → Bool
  | .start _ _ _ ok => ok
  | .stop _ ok => ok
  | .fire _ ok => ok
  | .resume _ => true

/-- Run a sequence of operations. -/
def run (s : EState) : List EOp → EState
  | [] => s
  | op :: ops => run (applyOp s op) ops

/-- Fresh enhanced controller state over an empty `tasks` table. -/
def init : EState := ⟨none, none, none, none, [], 0, [], none, [], 0, []⟩

/-- The ids of the open (NULL-end) rows of the `tasks` table. -/
def openIds (s : EState) : List ℕ :=
  (s.db.filter fun r => r.end_time.isNone).map fun r => r.id

/-- Timer well-formedness for the enhanced state (same as for
`src/main.py`). -/
def ETimerInv (s : EState) : Prop :=
  match s.auto_close_timer with
  | none => s.live_timers = []
  | some i => ∃ q, s.live_timers = [⟨i, q⟩]

/-- The inductive invariant tying the in-memory current task to the
database: the open rows are exactly the row of `current_task_id`, the
current-task fields are populated together, the current description is
never empty (so Python truthiness agrees with presence), and open rows
carry non-empty descriptions. -/
structure EInv (s : EState) : Prop where
  open_rows : openIds s = (match s.current_task_id with | some i => [i] | none => [])
  cur_start : s.current_task.isSome ↔ s.task_start_time.isSome
  cur_id : s.current_task.isSome ↔ s.current_task_id.isSome
  cur_ne : ∀ d, s.current_task = some d → d.isEmpty = false
  open_desc : ∀ r ∈ s.db, r.end_time.isNone → r.task_description.isEmpty = false

end EnhancedApp

namespace WebApp

/-- HTTP outcomes of the Flask endpoints of `src/web_app.py`, abstracting
the JSON payloads. -/
inductive Resp where
  | ok
  | badRequest
  | serverError
deriving DecidableEq

/-- The `POST /api/tasks/start` endpoint (`src/web_app.py` lines 227-255),
database path. The handler samples the clock twice: once (`now_end`) to
close the last incomplete row — with an UNROUNDED duration — and once
(`now_start`) for the new row's start time. `new_id` is the serial id the
INSERT returns. -/
def start_task (db : List EnhancedApp.DbTask) (new_id : ℕ) (desc_input : String)
    (category_id : Option ℕ) (now_end now_start : ℚ) :
    Resp × List EnhancedApp.DbTask :=
  let task_description := pyStrip desc_input
  if task_description.isEmpty then (.badRequest, db)
  else
    let db1 := match EnhancedApp.db_get_last_incomplete_task db with
      | some current =>
        EnhancedApp.db_end_task db current.id now_end
          ((now_end - current.start_time) / 60)
      | none => db
    (.ok, EnhancedApp.db_add_task db1 new_id task_description category_id now_start)

/-- The `DELETE /api/categories/<id>` endpoint (`src/web_app.py` lines
194-204): `db.delete_category(category_id)` raises `AttributeError`
because `DatabaseManager` defines no such method, so the `except Exception`
branch answers HTTP 500 and the categories table is untouched. -/
def delete_category (categories : List Category) (category_id : ℕ) :
    Resp × List Category :=
  if ModelsPy.database_manager_methods.contains "delete_category" then
    -- hypothetical success path; unreachable since the method does not exist
    (.ok, categories.filter fun c => c.id != category_id)
  else
    (.serverError, categories)

/-- Responses of the database-backed `POST /api/tasks/stop` endpoint: 400
with an error message, or 200 carrying the ROUNDED `duration_minutes` of
the JSON reply. -/
inductive StopResp where
  | ok (duration_minutes : ℚ)
  | badRequest
deriving DecidableEq

/-- The `POST /api/tasks/stop` endpoint (`src/web_app.py` lines 300-320),
database path: fetch the last incomplete row; with none answer 400;
otherwise UPDATE that row with end time `now` and the UNROUNDED duration
`(now - start_time) / 60` (line 312 passes the raw quotient to
`db.end_task`), while the JSON response carries `round(duration, 2)`. -/
def stop_task (db : List EnhancedApp.DbTask) (now : ℚ) :
    StopResp × List EnhancedApp.DbTask :=
  match EnhancedApp.db_get_last_incomplete_task db with
  | none => (.badRequest, db)
  | some current =>
    let duration := (now - current.start_time) / 60
    (.ok (pyRound2 duration),
     EnhancedApp.db_end_task db current.id now duration)

end WebApp

namespace WebStandalone

/-- The module-level `current_task` dict of `src/web_standalone.py`. -/
structure WsTask where
  id : ℤ
  task_description : String
  category_name : Option String
  start_time : ℚ
deriving DecidableEq

/-- One row of `web_time_tracker.csv` (`src/web_standalone.py`). -/
structure WsRow where
  id : ℤ
  task_description : String
  category_name : Option String
  start_time : ℚ
  end_time : ℚ
  duration_minutes : ℚ
deriving DecidableEq

/-- Server state: the global current task and the CSV rows. -/
structure WsState where
  current_task : Option WsTask
  csv : List WsRow
deriving DecidableEq

/-- Responses of `POST /api/tasks/stop`: 400 with an error message, or 200
with the closed task's description, rounded duration, and end time. -/
inductive WsResp where
  | ok (task_description : String) (duration_minutes : ℚ) (end_time : ℚ)
  | badRequest
deriving DecidableEq

/-- The `POST /api/tasks/stop` endpoint (`src/web_standalone.py` lines
237-269): with no current task answer 400 and change nothing; otherwise
append the closed CSV row (duration rounded to 2 decimals), clear the
global, and return the rounded duration. -/
def stop_task (s : WsState) (now : ℚ) : WsResp × WsState :=
  match s.current_task with
  | none => (.badRequest, s)
  | some t =>
    let duration := (now - t.start_time) / 60
    (.ok t.task_description (pyRound2 duration) now,
     ⟨none, s.csv ++ [⟨t.id, t.task_description, t.category_name, t.start_time, now,
                       pyRound2 duration⟩]⟩)

end WebStandalone

namespace MainApp

/-- A concrete tracker state with task "A" active since time 0 (used for
concrete witnesses and counterexamples). -/
def sample_active : TrackerState := ⟨some "A", some 0, [], none, [], 0, []⟩

/-- A concrete idle tracker state holding one closed record. -/
def sample_idle : TrackerState := ⟨none, none, [⟨"A", 0, 60, 1⟩], none, [], 1, []⟩

/-- A concrete state with the spec's worked example running: "Write report"
started at 09:00:00 (= second 32400 of the day). -/
def sample_report : TrackerState := ⟨some "Write report", some 32400, [], none, [], 0, []⟩

end MainApp

namespace EnhancedApp

/-- An open `tasks` row: description "A", no category, started at time 0. -/
def sample_open_row : DbTask := ⟨1, "A", none, 0, none, none⟩

/-- Enhanced state just after process start over a database holding the
single open row `sample_open_row`. -/
def sample_resume_state : EState :=
  ⟨none, none, none, none, [sample_open_row], 2, [], none, [], 0, []⟩

/-- An enhanced state with task "A" active since time 0, persisted as the
open row `sample_open_row`. -/
def sample_eactive : EState :=
  ⟨some "A", some 1, none, some 0, [sample_open_row], 2, [], none, [], 0, []⟩

end EnhancedApp

namespace WebStandalone

/-- An idle standalone web-server state. -/
def sample_ws_idle : WsState := ⟨none, []⟩

/-- A standalone web-server state with "Write report" running since second
32400 of the day (09:00:00). -/
def sample_ws_active : WsState := ⟨some ⟨100, "Write report", none, 32400⟩, []⟩

end WebStandalone


namespace MainApp

theorem strTruthy_some {d : String} (h : d.isEmpty = false) :
    strTruthy (some d) = true := by
  simp [strTruthy, h]

@[simp] theorem reset_current_task (s : TrackerState) (now : ℚ) :
    (reset_auto_close_timer s now).current_task = s.current_task := by
  unfold reset_auto_close_timer
  rcases h : s.auto_close_timer with _ | i <;> simp only [h] <;> split <;> rfl

@[simp] theorem reset_task_start_time (s : TrackerState) (now : ℚ) :
    (reset_auto_close_timer s now).task_start_time = s.task_start_time := by
  unfold reset_auto_close_timer
  rcases h : s.auto_close_timer with _ | i <;> simp only [h] <;> split <;> rfl

@[simp] theorem reset_records (s : TrackerState) (now : ℚ) :
    (reset_auto_close_timer s now).records = s.records := by
  unfold reset_auto_close_timer
  rcases h : s.auto_close_timer with _ | i <;> simp only [h] <;> split <;> rfl

@[simp] theorem reset_msgs (s : TrackerState) (now : ℚ) :
    (reset_auto_close_timer s now).msgs = s.msgs := by
  unfold reset_auto_close_timer
  rcases h : s.auto_close_timer with _ | i <;> simp only [h] <;> split <;> rfl

theorem end_task_idle (s : TrackerState) (e : ℚ) (ok : Bool)
    (h : s.current_task = none) : end_task s e ok = s := by
  unfold end_task
  rw [h]

theorem end_task_no_start (s : TrackerState) (e : ℚ) (ok : Bool)
    (h : s.task_start_time = none) : end_task s e ok = s := by
  unfold end_task
  rcases hc : s.current_task with _ | d <;> simp [hc, h]

theorem end_task_empty_desc (s : TrackerState) (e : ℚ) (ok : Bool) (d : String)
    (hc : s.current_task = some d) (hd : d.isEmpty = true) : end_task s e ok = s := by
  unfold end_task
  rcases ht : s.task_start_time with _ | t0 <;> simp [hc, ht, hd]

theorem end_task_active (s : TrackerState) (desc : String) (t0 e : ℚ) (ok : Bool)
    (hc : s.current_task = some desc) (hne : desc.isEmpty = false)
    (ht : s.task_start_time = some t0) :
    (end_task s e ok).current_task = none ∧
    (end_task s e ok).task_start_time = none ∧
    (end_task s e ok).records =
      (if ok then s.records ++ [⟨desc, t0, e, pyRound2 ((e - t0) / 60)⟩] else s.records) ∧
    (end_task s e ok).msgs =
      (if ok then s.msgs else s.msgs ++ [AppMsg.error_csv_write]) ∧
    (end_task s e ok).auto_close_timer = none ∧
    (end_task s e ok).live_timers =
      (match s.auto_close_timer with
       | some i => s.live_timers.filter fun t => t.timer_id != i
       | none => s.live_timers) := by
  unfold end_task
  rw [hc, ht]
  cases ok <;> rcases hat : s.auto_close_timer with _ | i <;> simp [hne, hat]

end MainApp

namespace MainApp

theorem timerInv_of_none (s : TrackerState) (h1 : s.auto_close_timer = none)
    (h2 : s.live_timers = []) : TimerInv s := by
  unfold TimerInv
  rw [h1]
  exact h2

theorem timerInv_of_single (s : TrackerState) (i : ℕ) (q : ℚ)
    (h1 : s.auto_close_timer = some i) (h2 : s.live_timers = [⟨i, q⟩]) : TimerInv s := by
  unfold TimerInv
  rw [h1]
  exact ⟨q, h2⟩

theorem filter_singleton_ne (i : ℕ) (q : ℚ) :
    ([⟨i, q⟩] : List Timer).filter (fun t => t.timer_id != i) = [] := by
  simp

theorem timerInv_end_task (s : TrackerState) (e : ℚ) (ok : Bool) (h : TimerInv s) :
    TimerInv (end_task s e ok) := by
  rcases hc : s.current_task with _ | d
  · rwa [end_task_idle s e ok hc]
  · cases hd : d.isEmpty
    · rcases ht : s.task_start_time with _ | t0
      · rwa [end_task_no_start s e ok ht]
      · obtain ⟨-, -, -, -, h5, h6⟩ := end_task_active s d t0 e ok hc hd ht
        refine timerInv_of_none _ h5 ?_
        rw [h6]
        unfold TimerInv at h
        rcases hat : s.auto_close_timer with _ | i
        · rw [hat] at h
          simpa using h
        · rw [hat] at h
          obtain ⟨q, hq⟩ := h
          rw [hq]
          exact filter_singleton_ne i q
    · rwa [end_task_empty_desc s e ok d hc hd]

theorem start_new_task_fields (s : TrackerState) (desc_input : String) (now : ℚ)
    (ok : Bool) (hne : (pyStrip desc_input).isEmpty = false) :
    (start_new_task s desc_input now ok).current_task = some (pyStrip desc_input) ∧
    (start_new_task s desc_input now ok).task_start_time = some now := by
  unfold start_new_task
  simp [hne]

theorem start_new_task_timer (s : TrackerState) (desc_input : String) (now : ℚ)
    (ok : Bool) (hinv : TimerInv s) (hne : (pyStrip desc_input).isEmpty = false) :
    ∃ j, (start_new_task s desc_input now ok).auto_close_timer = some j ∧
      (start_new_task s desc_input now ok).live_timers = [⟨j, now + 7200⟩] := by
  unfold start_new_task
  simp only [hne, Bool.false_eq_true, if_false]
  have hinv1 : TimerInv (if strTruthy s.current_task && s.task_start_time.isSome then
      end_task s now ok else s) := by
    split
    · exact timerInv_end_task s now ok hinv
    · exact hinv
  set s1 := (if strTruthy s.current_task && s.task_start_time.isSome then
      end_task s now ok else s) with hs1
  unfold reset_auto_close_timer
  unfold TimerInv at hinv1
  rcases hat : s1.auto_close_timer with _ | i
  · rw [hat] at hinv1
    refine ⟨s1.next_timer_id, ?_, ?_⟩ <;>
      simp [hat, hinv1, strTruthy, hne]
  · rw [hat] at hinv1
    obtain ⟨q, hq⟩ := hinv1
    refine ⟨s1.next_timer_id, ?_, ?_⟩ <;>
      simp [hat, hq, strTruthy, hne]

theorem timerInv_start_new_task (s : TrackerState) (d : String) (n : ℚ) (ok : Bool)
    (h : TimerInv s) : TimerInv (start_new_task s d n ok) := by
  cases hne : (pyStrip d).isEmpty
  · obtain ⟨j, hj, hl⟩ := start_new_task_timer s d n ok h hne
    exact timerInv_of_single _ j (n + 7200) hj hl
  · unfold start_new_task
    simp only [hne, if_true]
    exact h

theorem timerInv_set_msgs (s : TrackerState) (m : List AppMsg) :
    TimerInv { s with msgs := m } ↔ TimerInv s := Iff.rfl

theorem timerInv_applyOp (s : TrackerState) (op : MOp) (h : TimerInv s) :
    TimerInv (applyOp s op) := by
  cases op with
  | start d n ok => exact timerInv_start_new_task s d n ok h
  | stop n ok =>
    show TimerInv (stop_current_task s n ok)
    unfold stop_current_task
    split
    · exact timerInv_end_task s n ok h
    · exact (timerInv_set_msgs _ _).mpr h
  | fire n ok =>
    show TimerInv (auto_close_task s n ok)
    unfold auto_close_task
    split
    · exact (timerInv_set_msgs _ _).mpr (timerInv_end_task s n ok h)
    · exact h

theorem timerInv_run (ops : List MOp) : ∀ s : TrackerState, TimerInv s →
    TimerInv (run s ops) := by
  induction ops with
  | nil => exact fun s h => h
  | cons op ops ih => exact fun s h => ih _ (timerInv_applyOp s op h)

theorem timerInv_init : TimerInv init := timerInv_of_none _ rfl rfl

theorem live_timers_length_le_one (s : TrackerState) (h : TimerInv s) :
    s.live_timers.length ≤ 1 := by
  unfold TimerInv at h
  rcases hat : s.auto_close_timer with _ | i
  · rw [hat] at h
    simp [h]
  · rw [hat] at h
    obtain ⟨q, hq⟩ := h
    simp [hq]

end MainApp

namespace EnhancedApp

@[simp] theorem ereset_current_task (s : EState) (now : ℚ) :
    (reset_auto_close_timer s now).current_task = s.current_task := by
  unfold reset_auto_close_timer
  rcases h : s.auto_close_timer with _ | i <;> simp only [h] <;> split <;> rfl

@[simp] theorem ereset_current_task_id (s : EState) (now : ℚ) :
    (reset_auto_close_timer s now).current_task_id = s.current_task_id := by
  unfold reset_auto_close_timer
  rcases h : s.auto_close_timer with _ | i <;> simp only [h] <;> split <;> rfl

@[simp] theorem ereset_current_category_id (s : EState) (now : ℚ) :
    (reset_auto_close_timer s now).current_category_id = s.current_category_id := by
  unfold reset_auto_close_timer
  rcases h : s.auto_close_timer with _ | i <;> simp only [h] <;> split <;> rfl

@[simp] theorem ereset_task_start_time (s : EState) (now : ℚ) :
    (reset_auto_close_timer s now).task_start_time = s.task_start_time := by
  unfold reset_auto_close_timer
  rcases h : s.auto_close_timer with _ | i <;> simp only [h] <;> split <;> rfl

@[simp] theorem ereset_db (s : EState) (now : ℚ) :
    (reset_auto_close_timer s now).db = s.db := by
  unfold reset_auto_close_timer
  rcases h : s.auto_close_timer with _ | i <;> simp only [h] <;> split <;> rfl

@[simp] theorem ereset_next_id (s : EState) (now : ℚ) :
    (reset_auto_close_timer s now).next_id = s.next_id := by
  unfold reset_auto_close_timer
  rcases h : s.auto_close_timer with _ | i <;> simp only [h] <;> split <;> rfl

@[simp] theorem ereset_csv (s : EState) (now : ℚ) :
    (reset_auto_close_timer s now).csv = s.csv := by
  unfold reset_auto_close_timer
  rcases h : s.auto_close_timer with _ | i <;> simp only [h] <;> split <;> rfl

@[simp] theorem ereset_msgs (s : EState) (now : ℚ) :
    (reset_auto_close_timer s now).msgs = s.msgs := by
  unfold reset_auto_close_timer
  rcases h : s.auto_close_timer with _ | i <;> simp only [h] <;> split <;> rfl

theorem eend_task_idle (s : EState) (e : ℚ) (ok : Bool)
    (h : s.current_task = none) : end_task s e ok = s := by
  unfold end_task
  rw [h]

theorem eend_task_no_start (s : EState) (e : ℚ) (ok : Bool)
    (h : s.task_start_time = none) : end_task s e ok = s := by
  unfold end_task
  rcases hc : s.current_task with _ | d <;> simp [hc, h]

theorem eend_task_empty_desc (s : EState) (e : ℚ) (ok : Bool) (d : String)
    (hc : s.current_task = some d) (hd : d.isEmpty = true) : end_task s e ok = s := by
  unfold end_task
  rcases ht : s.task_start_time with _ | t0 <;> simp [hc, ht, hd]

theorem eend_task_active (s : EState) (desc : String) (t0 e : ℚ) (ok : Bool)
    (hc : s.current_task = some desc) (hne : desc.isEmpty = false)
    (ht : s.task_start_time = some t0) :
    (end_task s e ok).current_task = none ∧
    (end_task s e ok).current_task_id = none ∧
    (end_task s e ok).current_category_id = none ∧
    (end_task s e ok).task_start_time = none ∧
    (end_task s e ok).csv =
      s.csv ++ [⟨desc, s.current_category_id, t0, e, pyRound2 ((e - t0) / 60)⟩] ∧
    (end_task s e ok).db =
      (match s.current_task_id with
       | some tid => if ok then db_end_task s.db tid e (pyRound2 ((e - t0) / 60)) else s.db
       | none => s.db) ∧
    (end_task s e ok).msgs =
      (match s.current_task_id with
       | some _ => if ok then s.msgs else s.msgs ++ [AppMsg.error_db_end_task]
       | none => s.msgs) ∧
    (end_task s e ok).next_id = s.next_id ∧
    (end_task s e ok).auto_close_timer = none ∧
    (end_task s e ok).live_timers =
      (match s.auto_close_timer with
       | some i => s.live_timers.filter fun t => t.timer_id != i
       | none => s.live_timers) := by
  unfold end_task
  rw [hc, ht]
  cases ok <;> rcases hid : s.current_task_id with _ | tid <;>
    rcases hat : s.auto_close_timer with _ | i <;> simp [hne, hid, hat]

end EnhancedApp

namespace EnhancedApp

theorem db_end_task_openIds (db : List DbTask) (tid : ℕ) (e d : ℚ) :
    ((db_end_task db tid e d).filter fun r => r.end_time.isNone).map (fun r => r.id) =
      ((db.filter fun r => r.end_time.isNone).map fun r => r.id).filter
        (fun j => j != tid) := by
  induction db with
  | nil => rfl
  | cons r rest ih =>
    simp only [db_end_task, List.map_cons, List.filter_cons] at *
    by_cases hid : r.id = tid
    · cases hre : r.end_time.isNone <;> simp [hid, hre, ih, db_end_task]
    · cases hre : r.end_time.isNone <;> simp [hid, hre, ih, db_end_task]

theorem db_add_task_openIds (db : List DbTask) (i : ℕ) (desc : String)
    (cat : Option ℕ) (t : ℚ) :
    ((db_add_task db i desc cat t).filter fun r => r.end_time.isNone).map
        (fun r => r.id) =
      ((db.filter fun r => r.end_time.isNone).map fun r => r.id) ++ [i] := by
  simp [db_add_task]

theorem db_end_task_mem {db : List DbTask} {tid : ℕ} {e d : ℚ} {r' : DbTask}
    (h : r' ∈ db_end_task db tid e d) :
    ∃ r ∈ db, r'.task_description = r.task_description ∧
      (r'.end_time.isNone = true → r.end_time.isNone = true) := by
  unfold db_end_task at h
  obtain ⟨r, hr, hfr⟩ := List.mem_map.mp h
  refine ⟨r, hr, ?_⟩
  by_cases hid : r.id = tid <;> simp [hid] at hfr <;> subst hfr <;> simp

theorem map_id_eq_singleton {l : List DbTask} {i : ℕ}
    (h : l.map (fun r => r.id) = [i]) : ∃ r, l = [r] ∧ r.id = i := by
  cases l with
  | nil => simp at h
  | cons a t =>
    cases t with
    | nil =>
      simp at h
      exact ⟨a, rfl, h⟩
    | cons b t2 => simp at h

theorem db_get_last_of_single {db : List DbTask} {r : DbTask}
    (h : db.filter (fun x => x.end_time.isNone) = [r]) :
    db_get_last_incomplete_task db = some r := by
  unfold db_get_last_incomplete_task
  rw [h]
  rfl

theorem db_get_last_none {db : List DbTask}
    (h : db.filter (fun x => x.end_time.isNone) = []) :
    db_get_last_incomplete_task db = none := by
  unfold db_get_last_incomplete_task
  rw [h]
  rfl

theorem strTruthy_iff (o : Option String) :
    strTruthy o = true ↔ ∃ d, o = some d ∧ d.isEmpty = false := by
  cases o <;> simp [strTruthy]

theorem einv_set_msgs (s : EState) (m : List AppMsg) (h : EInv s) :
    EInv { s with msgs := m } :=
  ⟨h.open_rows, h.cur_start, h.cur_id, h.cur_ne, h.open_desc⟩

end EnhancedApp

namespace EnhancedApp

theorem einv_end_task_closed (s : EState) (e : ℚ) (h : EInv s)
    (hc : strTruthy s.current_task = true) :
    EInv (end_task s e true) ∧
    ((end_task s e true).db.filter fun r => r.end_time.isNone).map (fun r => r.id)
      = [] ∧
    (end_task s e true).current_task = none ∧
    (end_task s e true).current_task_id = none ∧
    (end_task s e true).next_id = s.next_id := by
  obtain ⟨d, hcd, hdne⟩ := (strTruthy_iff _).mp hc
  have hss : s.task_start_time.isSome := by
    rw [← h.cur_start, hcd]
    rfl
  obtain ⟨t0, ht⟩ := Option.isSome_iff_exists.mp hss
  have his : s.current_task_id.isSome := by
    rw [← h.cur_id, hcd]
    rfl
  obtain ⟨tid, hid⟩ := Option.isSome_iff_exists.mp his
  obtain ⟨a1, a2, a3, a4, a5, a6, a7, a8, a9, a10⟩ :=
    eend_task_active s d t0 e true hcd hdne ht
  rw [hid] at a6 a7
  simp only [if_true] at a6
  have hopen : ((end_task s e true).db.filter fun r => r.end_time.isNone).map
      (fun r => r.id) = [] := by
    rw [a6, db_end_task_openIds]
    have hrows := h.open_rows
    rw [hid] at hrows
    unfold openIds at hrows
    rw [hrows]
    simp
  refine ⟨⟨?_, ?_, ?_, ?_, ?_⟩, hopen, a1, a2, a8⟩
  · unfold openIds
    rw [hopen, a2]
  · rw [a1, a4]
    exact Iff.rfl
  · rw [a1, a2]
    exact Iff.rfl
  · intro dd hdd
    rw [a1] at hdd
    exact absurd hdd (by simp)
  · intro r' hr' hr'open
    rw [a6] at hr'
    obtain ⟨r, hrmem, hdesc, himpl⟩ := db_end_task_mem hr'
    rw [hdesc]
    exact h.open_desc r hrmem (himpl hr'open)

theorem einv_end_task_any (s : EState) (e : ℚ) (h : EInv s) :
    EInv (end_task s e true) := by
  cases hc : strTruthy s.current_task
  · rcases hco : s.current_task with _ | d
    · rwa [eend_task_idle s e true hco]
    · have : d.isEmpty = true := by
        rw [hco] at hc
        simpa [strTruthy] using hc
      rwa [eend_task_empty_desc s e true d hco this]
  · exact (einv_end_task_closed s e h hc).1

end EnhancedApp

namespace EnhancedApp

theorem einv_reset (s : EState) (n : ℚ) (h : EInv s) :
    EInv (reset_auto_close_timer s n) := by
  refine ⟨?_, ?_, ?_, ?_, ?_⟩
  · have hrows := h.open_rows
    unfold openIds at *
    rw [ereset_db, ereset_current_task_id]
    exact hrows
  · rw [ereset_current_task, ereset_task_start_time]
    exact h.cur_start
  · rw [ereset_current_task, ereset_current_task_id]
    exact h.cur_id
  · intro dd hdd
    rw [ereset_current_task] at hdd
    exact h.cur_ne dd hdd
  · intro r hr ho
    rw [ereset_db] at hr
    exact h.open_desc r hr ho

theorem einv_start_aux (A : EState) (desc : String) (c : Option ℕ) (n : ℚ)
    (hopenA : (A.db.filter fun r => r.end_time.isNone).map (fun r => r.id) = [])
    (hdescA : ∀ r ∈ A.db, r.end_time.isNone = true → r.task_description.isEmpty = false)
    (hne : desc.isEmpty = false) :
    EInv (reset_auto_close_timer
      { A with current_task := some desc, current_category_id := c,
               task_start_time := some n,
               db := db_add_task A.db A.next_id desc c n,
               current_task_id := some A.next_id, next_id := A.next_id + 1 } n) := by
  refine einv_reset _ n ⟨?_, ?_, ?_, ?_, ?_⟩
  · unfold openIds
    simp only
    rw [db_add_task_openIds, hopenA]
    rfl
  · simp
  · simp
  · intro dd hdd
    simp only at hdd
    rw [Option.some_inj] at hdd
    rw [← hdd]
    exact hne
  · intro r hr ho
    unfold db_add_task at hr
    simp only at hr
    rcases List.mem_append.mp hr with hin | hnew
    · exact hdescA r hin ho
    · rw [List.mem_singleton] at hnew
      rw [hnew]
      exact hne

theorem einv_start_new_task (s : EState) (d : String) (c : Option ℕ) (n : ℚ)
    (h : EInv s) : EInv (start_new_task s d c n true) := by
  cases hne : (pyStrip d).isEmpty
  · unfold start_new_task
    simp only [hne, Bool.false_eq_true, if_false]
    rcases hco : s.current_task with _ | dd
    · have hguard : (strTruthy (none : Option String) && s.task_start_time.isSome)
          = false := rfl
      rw [hguard]
      simp only [Bool.false_eq_true, if_false, eq_self_iff_true, if_true]
      have hopen : (s.db.filter fun r => r.end_time.isNone).map (fun r => r.id) = [] := by
        have hrows := h.open_rows
        have hidn : s.current_task_id = none := by
          have hci := h.cur_id
          rw [hco] at hci
          rcases hi : s.current_task_id with _ | i
          · rfl
          · rw [hi] at hci
            simp at hci
        rw [hidn] at hrows
        unfold openIds at hrows
        exact hrows
      exact einv_start_aux s (pyStrip d) c n hopen h.open_desc hne
    · have hdne := h.cur_ne dd hco
      have hct : strTruthy s.current_task = true := by
        rw [hco]
        simp [strTruthy, hdne]
      have hsome : s.task_start_time.isSome = true := by
        rw [← h.cur_start, hco]
        rfl
      have hguard : (strTruthy (some dd) && s.task_start_time.isSome) = true := by
        simp [strTruthy, hdne, hsome]
      rw [hguard]
      simp only [eq_self_iff_true, if_true]
      obtain ⟨hA, hopenA, -, -, -⟩ := einv_end_task_closed s n h hct
      exact einv_start_aux (end_task s n true) (pyStrip d) c n hopenA hA.open_desc hne
  · unfold start_new_task
    simp only [hne, if_true]
    exact einv_set_msgs s _ h

end EnhancedApp

namespace EnhancedApp

theorem einv_stop (s : EState) (n : ℚ) (h : EInv s) :
    EInv (stop_current_task s n true) := by
  unfold stop_current_task
  cases hc : strTruthy s.current_task
  · simp only [Bool.false_eq_true, if_false]
    exact einv_set_msgs s _ h
  · simp only [if_true]
    exact (einv_end_task_closed s n h hc).1

theorem einv_auto_close (s : EState) (n : ℚ) (h : EInv s) :
    EInv (auto_close_task s n true) := by
  unfold auto_close_task
  cases hc : strTruthy s.current_task
  · simp only [Bool.false_eq_true, if_false]
    exact h
  · simp only [if_true]
    exact einv_set_msgs _ _ (einv_end_task_closed s n h hc).1

theorem einv_check_resumable (s : EState) (n : ℚ) (h : EInv s) :
    EInv (check_resumable_task s n) := by
  unfold check_resumable_task
  rcases hid : s.current_task_id with _ | i
  · have hrows := h.open_rows
    rw [hid] at hrows
    unfold openIds at hrows
    have hfil : s.db.filter (fun x => x.end_time.isNone) = [] :=
      List.map_eq_nil_iff.mp hrows
    rw [db_get_last_none hfil]
    exact h
  · have hrows := h.open_rows
    rw [hid] at hrows
    unfold openIds at hrows
    obtain ⟨r0, hfil, hr0id⟩ := map_id_eq_singleton hrows
    rw [db_get_last_of_single hfil]
    dsimp only
    split
    · have hr0f : r0 ∈ s.db.filter (fun x => x.end_time.isNone) := by
        rw [hfil]
        exact List.mem_singleton.mpr rfl
      have hr0mem := (List.mem_filter.mp hr0f).1
      have hr0open := (List.mem_filter.mp hr0f).2
      have hdesc := h.open_desc r0 hr0mem hr0open
      unfold resume_task
      apply einv_set_msgs
      apply einv_reset
      refine ⟨?_, Iff.rfl, Iff.rfl, ?_, ?_⟩
      · unfold openIds
        simp only
        rw [hrows, hr0id]
      · intro e he
        simp only [Option.some_inj] at he
        rw [← he]
        exact hdesc
      · exact fun r hr ho => h.open_desc r hr ho
    · exact h

theorem einv_applyOp (s : EState) (op : EOp) (hok : opOk op = true) (h : EInv s) :
    EInv (applyOp s op) := by
  cases op with
  | start d c n ok =>
    simp only [opOk] at hok
    subst hok
    exact einv_start_new_task s d c n h
  | stop n ok =>
    simp only [opOk] at hok
    subst hok
    exact einv_stop s n h
  | fire n ok =>
    simp only [opOk] at hok
    subst hok
    exact einv_auto_close s n h
  | resume n => exact einv_check_resumable s n h

theorem einv_run (ops : List EOp) : ∀ s : EState, EInv s →
    (∀ op ∈ ops, opOk op = true) → EInv (run s ops) := by
  induction ops with
  | nil => exact fun s h _ => h
  | cons op ops ih =>
    intro s h hok
    exact ih _ (einv_applyOp s op (hok op (List.mem_cons_self op ops)) h)
      (fun o ho => hok o (List.mem_cons_of_mem op ho))

theorem einv_init : EInv init := by
  refine ⟨rfl, Iff.rfl, Iff.rfl, ?_, ?_⟩
  · intro d hd
    exact absurd hd (by simp [init])
  · intro r hr
    exact absurd hr (by simp [init])

end EnhancedApp

namespace EnhancedApp

theorem check_resumable_eq (s : EState) (n : ℚ) (r : DbTask)
    (h : db_get_last_incomplete_task s.db = some r) :
    check_resumable_task s n =
      if n - r.start_time < 7200 then resume_task s r n else s := by
  unfold check_resumable_task
  rw [h]

theorem resume_task_fields (s : EState) (r : DbTask) (n : ℚ) :
    (resume_task s r n).current_task = some r.task_description ∧
    (resume_task s r n).current_task_id = some r.id ∧
    (resume_task s r n).task_start_time = some r.start_time ∧
    (resume_task s r n).current_category_id = r.category_id ∧
    (resume_task s r n).db = s.db ∧
    (resume_task s r n).csv = s.csv := by
  unfold resume_task
  simp

theorem resume_task_timer (s : EState) (r : DbTask) (n : ℚ) (hinv : ETimerInv s)
    (hne : r.task_description.isEmpty = false) :
    ∃ j, (resume_task s r n).auto_close_timer = some j ∧
      (resume_task s r n).live_timers = [⟨j, n + 7200⟩] := by
  unfold resume_task reset_auto_close_timer
  unfold ETimerInv at hinv
  rcases hat : s.auto_close_timer with _ | i
  · rw [hat] at hinv
    refine ⟨s.next_timer_id, ?_, ?_⟩ <;> simp [hat, hinv, strTruthy, hne]
  · rw [hat] at hinv
    obtain ⟨q, hq⟩ := hinv
    refine ⟨s.next_timer_id, ?_, ?_⟩ <;> simp [hat, hq, strTruthy, hne]

end EnhancedApp

namespace MainApp

theorem stop_current_task_active (s : TrackerState) (desc : String) (t1 : ℚ)
    (ok : Bool) (hc : s.current_task = some desc) (hne : desc.isEmpty = false) :
    stop_current_task s t1 ok = end_task s t1 ok := by
  unfold stop_current_task
  rw [hc, strTruthy_some hne]
  simp

theorem start_new_task_records_active (s : TrackerState) (a : String) (t0 : ℚ)
    (desc_input : String) (now : ℚ) (hc : s.current_task = some a)
    (ha : a.isEmpty = false) (ht : s.task_start_time = some t0)
    (hne : (pyStrip desc_input).isEmpty = false) :
    (start_new_task s desc_input now true).records =
      s.records ++ [⟨a, t0, now, pyRound2 ((now - t0) / 60)⟩] := by
  unfold start_new_task
  simp only [hne, Bool.false_eq_true, if_false]
  have hguard : (strTruthy s.current_task && s.task_start_time.isSome) = true := by
    rw [hc, ht, strTruthy_some ha]
    rfl
  rw [hguard]
  simp only [eq_self_iff_true, if_true]
  obtain ⟨-, -, h3, -, -, -⟩ := end_task_active s a t0 now true hc ha ht
  rw [reset_records]
  simpa using h3

theorem start_new_task_records_idle (s : TrackerState) (desc_input : String)
    (now : ℚ) (ok : Bool) (hc : s.current_task = none)
    (hne : (pyStrip desc_input).isEmpty = false) :
    (start_new_task s desc_input now ok).records = s.records := by
  unfold start_new_task
  simp only [hne, Bool.false_eq_true, if_false]
  have hguard : (strTruthy s.current_task && s.task_start_time.isSome) = false := by
    rw [hc]
    rfl
  rw [hguard]
  simp

theorem start_new_task_empty (s : TrackerState) (desc_input : String) (now : ℚ)
    (ok : Bool) (he : (pyStrip desc_input).isEmpty = true) :
    start_new_task s desc_input now ok =
      { s with msgs := s.msgs ++ [AppMsg.warn_empty_description] } := by
  unfold start_new_task
  simp only [he, if_true]

theorem stop_current_task_idle (s : TrackerState) (now : ℚ) (ok : Bool)
    (hc : s.current_task = none) :
    stop_current_task s now ok =
      { s with msgs := s.msgs ++ [AppMsg.info_no_active_task] } := by
  unfold stop_current_task
  rw [hc]
  simp [strTruthy]

theorem auto_close_task_idle (s : TrackerState) (now : ℚ) (ok : Bool)
    (hc : s.current_task = none) : auto_close_task s now ok = s := by
  unfold auto_close_task
  rw [hc]
  simp [strTruthy]

end MainApp

namespace WebApp

theorem start_task_active (db : List EnhancedApp.DbTask) (new_id : ℕ)
    (desc_input : String) (cat : Option ℕ) (t1 t2 : ℚ) (cur : EnhancedApp.DbTask)
    (hcur : EnhancedApp.db_get_last_incomplete_task db = some cur)
    (hne : (pyStrip desc_input).isEmpty = false) :
    start_task db new_id desc_input cat t1 t2 =
      (.ok, EnhancedApp.db_add_task
        (EnhancedApp.db_end_task db cur.id t1 ((t1 - cur.start_time) / 60))
        new_id (pyStrip desc_input) cat t2) := by
  unfold start_task
  rw [hcur]
  simp only [hne, Bool.false_eq_true, if_false]

theorem start_task_empty (db : List EnhancedApp.DbTask) (new_id : ℕ)
    (desc_input : String) (cat : Option ℕ) (t1 t2 : ℚ)
    (he : (pyStrip desc_input).isEmpty = true) :
    start_task db new_id desc_input cat t1 t2 = (.badRequest, db) := by
  unfold start_task
  simp only [he, if_true]

theorem stop_task_active (db : List EnhancedApp.DbTask) (now : ℚ)
    (cur : EnhancedApp.DbTask)
    (hcur : EnhancedApp.db_get_last_incomplete_task db = some cur) :
    stop_task db now =
      (.ok (pyRound2 ((now - cur.start_time) / 60)),
       EnhancedApp.db_end_task db cur.id now ((now - cur.start_time) / 60)) := by
  unfold stop_task
  rw [hcur]

end WebApp

/-- C1 counterexample: the lifecycle operations do NOT all preserve the
single-active-task invariant. On the reachable trace start "A" at 0
(write succeeds), stop at 10 with the database write failing
(`src/main_enhanced.py` lines 696-700 catch the exception, lines 702-711
clear the current task anyway, leaving row 0 open), then start "B" at 20
(write succeeds — the implicit close is skipped because `current_task` is
falsy), the `tasks` table ends with TWO rows having a NULL `end_time`. -/
theorem c1_failed_close_counterexample :
    (((EnhancedApp.run EnhancedApp.init
        [.start "A" none 0 true, .stop 10 false, .start "B" none 20 true]).db.filter
      fun r => r.end_time.isNone).map fun r => r.id) = [0, 1] ∧
    ¬ (((EnhancedApp.run EnhancedApp.init
        [.start "A" none 0 true, .stop 10 false, .start "B" none 20 true]).db.filter
      fun r => r.end_time.isNone).length ≤ 1) := by
  constructor <;> decide

/-- C1 (amended): single-active-task invariant on failure-free traces.
Every sequence of lifecycle operations (start, stop, auto_close, resume)
whose database writes all succeed, run from a fresh database-backed
controller, leaves at most one `tasks` row with a NULL `end_time`; when a
close's write fails the closed row instead stays open while the controller
goes idle, and a subsequent successful start inserts a second open row. -/
theorem c1_single_active_task_amended (ops : List EnhancedApp.EOp)
    (hok : ∀ op ∈ ops, EnhancedApp.opOk op = true) :
    ((EnhancedApp.run EnhancedApp.init ops).db.filter
      fun r => r.end_time.isNone).length ≤ 1 := by
  have h := EnhancedApp.einv_run ops EnhancedApp.init EnhancedApp.einv_init hok
  have hrows := h.open_rows
  unfold EnhancedApp.openIds at hrows
  have hlen : ((EnhancedApp.run EnhancedApp.init ops).db.filter
      fun r => r.end_time.isNone).length =
      (((EnhancedApp.run EnhancedApp.init ops).db.filter
        fun r => r.end_time.isNone).map fun r => r.id).length :=
    (List.length_map _ _).symm
  rw [hlen, hrows]
  rcases (EnhancedApp.run EnhancedApp.init ops).current_task_id with _ | i <;> simp

/-- C1 witness: a concrete failure-free sequence — start "A", stop it,
start "B", then a resume check — leaves at most one open row. -/
theorem c1_single_active_task_amended_witness :
    ((EnhancedApp.run EnhancedApp.init
        [.start "A" none 0 true, .stop 10 true, .start "B" none 20 true,
         .resume 30]).db.filter
      fun r => r.end_time.isNone).length ≤ 1 :=
  c1_single_active_task_amended
    [.start "A" none 0 true, .stop 10 true, .start "B" none 20 true, .resume 30]
    (by decide)

/-- C7: countdown uniqueness. After any sequence of start, stop, and
countdown-firing operations on the `src/main.py` controller, at most one
OS countdown timer is outstanding: arming cancels and replaces the previous
timer, and stop or close disarms it. -/
theorem c7_countdown_uniqueness (ops : List MainApp.MOp) :
    (MainApp.run MainApp.init ops).live_timers.length ≤ 1 :=
  MainApp.live_timers_length_le_one _
    (MainApp.timerInv_run ops MainApp.init MainApp.timerInv_init)

/-- C10: category deletion always fails. `DatabaseManager` defines no
`delete_category` method, so both the web endpoint (which answers HTTP 500
from its `except` branch) and the GUI handler (which shows an error dialog)
leave the persisted categories unchanged on every delete attempt. -/
theorem c10_delete_category_always_fails :
    ModelsPy.database_manager_methods.contains "delete_category" = false ∧
    (∀ (cats : List Category) (cid : ℕ),
      WebApp.delete_category cats cid = (.serverError, cats)) ∧
    (∀ (cats : List Category) (cid : ℕ),
      EnhancedApp.delete_category cats cid = (cats, true)) := by
  refine ⟨rfl, ?_, ?_⟩
  · intro cats cid
    unfold WebApp.delete_category
    rw [show ModelsPy.database_manager_methods.contains "delete_category" = false
      from rfl]
    simp
  · intro cats cid
    unfold EnhancedApp.delete_category
    rw [show ModelsPy.database_manager_methods.contains "delete_category" = false
      from rfl]
    simp

/-- C8: empty-description validation. When the description is empty after
trimming, desktop `start_new_task` only emits the warning dialog — the
current task, records, and armed countdown are untouched — and the web
endpoint answers 400 leaving the database unchanged; no task is created or
closed. -/
theorem c8_empty_description_validation :
    (∀ (s : MainApp.TrackerState) (desc_input : String) (now : ℚ) (ok : Bool),
      (pyStrip desc_input).isEmpty = true →
      MainApp.start_new_task s desc_input now ok =
        { s with msgs := s.msgs ++ [AppMsg.warn_empty_description] }) ∧
    (∀ (db : List EnhancedApp.DbTask) (new_id : ℕ) (desc_input : String)
      (cat : Option ℕ) (t1 t2 : ℚ),
      (pyStrip desc_input).isEmpty = true →
      WebApp.start_task db new_id desc_input cat t1 t2 = (.badRequest, db)) :=
  ⟨fun s d n ok he => MainApp.start_new_task_empty s d n ok he,
   fun db i d c t1 t2 he => WebApp.start_task_empty db i d c t1 t2 he⟩

/-- C8 witness: starting with the whitespace-only description "   " on the
concrete active state leaves everything but the dialog log unchanged, and
the web endpoint rejects it with 400. -/
theorem c8_empty_description_validation_witness :
    MainApp.start_new_task MainApp.sample_active "   " 5 true =
      { MainApp.sample_active with
        msgs := MainApp.sample_active.msgs ++ [AppMsg.warn_empty_description] } ∧
    WebApp.start_task [EnhancedApp.sample_open_row] 2 "   " none 10 11 =
      (.badRequest, [EnhancedApp.sample_open_row]) :=
  ⟨c8_empty_description_validation.1 MainApp.sample_active "   " 5 true rfl,
   c8_empty_description_validation.2 [EnhancedApp.sample_open_row] 2 "   " none 10 11 rfl⟩

/-- C9: close on an idle controller. With no current task, desktop stop
only shows the "no active task" dialog, a firing countdown does nothing at
all, and the standalone web stop endpoint answers 400 — in every case no
record is emitted and the state is unchanged. -/
theorem c9_close_on_idle :
    (∀ (s : MainApp.TrackerState) (now : ℚ) (ok : Bool), s.current_task = none →
      MainApp.stop_current_task s now ok =
        { s with msgs := s.msgs ++ [AppMsg.info_no_active_task] }) ∧
    (∀ (s : MainApp.TrackerState) (now : ℚ) (ok : Bool), s.current_task = none →
      MainApp.auto_close_task s now ok = s) ∧
    (∀ (s : WebStandalone.WsState) (now : ℚ), s.current_task = none →
      WebStandalone.stop_task s now = (.badRequest, s)) := by
  refine ⟨fun s now ok hc => MainApp.stop_current_task_idle s now ok hc,
          fun s now ok hc => MainApp.auto_close_task_idle s now ok hc,
          fun s now hc => ?_⟩
  unfold WebStandalone.stop_task
  rw [hc]

/-- C9 witness: the three idle-close behaviours at concrete idle states. -/
theorem c9_close_on_idle_witness :
    MainApp.stop_current_task MainApp.sample_idle 99 true =
      { MainApp.sample_idle with
        msgs := MainApp.sample_idle.msgs ++ [AppMsg.info_no_active_task] } ∧
    MainApp.auto_close_task MainApp.sample_idle 99 true = MainApp.sample_idle ∧
    WebStandalone.stop_task WebStandalone.sample_ws_idle 99 =
      (.badRequest, WebStandalone.sample_ws_idle) :=
  ⟨c9_close_on_idle.1 MainApp.sample_idle 99 true rfl,
   c9_close_on_idle.2.1 MainApp.sample_idle 99 true rfl,
   c9_close_on_idle.2.2 WebStandalone.sample_ws_idle 99 rfl⟩

/-- C3 counterexample: the database-backed web stop endpoint
(`src/web_app.py` lines 300-320) persists the UNROUNDED duration — line
312 passes the raw quotient `(t1 - t0).total_seconds() / 60` to
`db.end_task`; only the JSON reply is rounded. Stopping the open row
started at 0 at time 10 stores `duration_minutes = 1/6` (10 seconds =
1/6 minute), which differs from `round(1/6, 2) = 0.17`, refuting the
claim that the persisted value always equals the rounded formula. -/
theorem c3_web_stop_counterexample :
    (WebApp.stop_task [EnhancedApp.sample_open_row] 10).2 =
      [⟨1, "A", none, 0, some 10, some (1/6)⟩] ∧
    (WebApp.stop_task [EnhancedApp.sample_open_row] 10).1 =
      .ok (pyRound2 (1/6)) ∧
    (1/6 : ℚ) ≠ pyRound2 (1/6) := by
  have h := WebApp.stop_task_active [EnhancedApp.sample_open_row] 10
    EnhancedApp.sample_open_row rfl
  refine ⟨?_, ?_, by norm_num [pyRound2, roundHalfEven]⟩
  · rw [h]
    simp [EnhancedApp.db_end_task, EnhancedApp.sample_open_row]
    norm_num
  · rw [h]
    have h6 : ((10 : ℚ) - EnhancedApp.sample_open_row.start_time) / 60 = 1/6 := by
      norm_num [EnhancedApp.sample_open_row]
    rw [h6]

/-- C3 (amended): duration formula. Stopping a task started at `t0` at
`t1 > t0` records a `duration_minutes` of
`round((t1 - t0).total_seconds() / 60, 2)` in the desktop variant's CSV,
and the standalone web endpoint both persists and returns that rounded
value; the database-backed web stop endpoint, however, returns the rounded
value in its JSON reply but persists the UNROUNDED quotient
`(t1 - t0) / 60` to the `tasks` table. -/
theorem c3_duration_formula :
    (∀ (s : MainApp.TrackerState) (desc : String) (t0 t1 : ℚ),
      s.current_task = some desc → desc.isEmpty = false →
      s.task_start_time = some t0 → t0 < t1 →
      (MainApp.stop_current_task s t1 true).records =
        s.records ++ [⟨desc, t0, t1, pyRound2 ((t1 - t0) / 60)⟩]) ∧
    (∀ (s : WebStandalone.WsState) (t : WebStandalone.WsTask) (now : ℚ),
      s.current_task = some t → t.start_time < now →
      WebStandalone.stop_task s now =
        (.ok t.task_description (pyRound2 ((now - t.start_time) / 60)) now,
         ⟨none, s.csv ++ [⟨t.id, t.task_description, t.category_name, t.start_time,
                           now, pyRound2 ((now - t.start_time) / 60)⟩]⟩)) ∧
    (∀ (db : List EnhancedApp.DbTask) (now : ℚ) (cur : EnhancedApp.DbTask),
      EnhancedApp.db_get_last_incomplete_task db = some cur →
      cur.start_time < now →
      WebApp.stop_task db now =
        (.ok (pyRound2 ((now - cur.start_time) / 60)),
         EnhancedApp.db_end_task db cur.id now ((now - cur.start_time) / 60))) := by
  refine ⟨?_, ?_, ?_⟩
  · intro s desc t0 t1 hc hne ht hlt
    rw [MainApp.stop_current_task_active s desc t1 true hc hne]
    obtain ⟨-, -, h3, -, -, -⟩ := MainApp.end_task_active s desc t0 t1 true hc hne ht
    simpa using h3
  · intro s t now hc hlt
    unfold WebStandalone.stop_task
    rw [hc]
  · intro db now cur hcur hlt
    exact WebApp.stop_task_active db now cur hcur

/-- C3 witness: the spec's worked example — start "Write report" at
09:00:00 (second 32400), stop at 09:25:30 (second 33930) — yields a
recorded and returned duration of 25.5 minutes in the desktop and
standalone-web variants, while the database-backed endpoint returns 25.5
but stores the raw quotient (also 25.5 here, as 1530/60 is exact). -/
theorem c3_duration_formula_witness :
    (MainApp.stop_current_task MainApp.sample_report 33930 true).records =
      [⟨"Write report", 32400, 33930, 51/2⟩] ∧
    WebStandalone.stop_task WebStandalone.sample_ws_active 33930 =
      (.ok "Write report" (51/2) 33930,
       ⟨none, [⟨100, "Write report", none, 32400, 33930, 51/2⟩]⟩) ∧
    WebApp.stop_task [EnhancedApp.sample_open_row] 10 =
      (.ok (pyRound2 ((10 - EnhancedApp.sample_open_row.start_time) / 60)),
       EnhancedApp.db_end_task [EnhancedApp.sample_open_row]
         EnhancedApp.sample_open_row.id 10
         ((10 - EnhancedApp.sample_open_row.start_time) / 60)) := by
  have h1 := c3_duration_formula.1 MainApp.sample_report "Write report" 32400 33930
    rfl rfl rfl (by norm_num)
  have h2 := c3_duration_formula.2.1 WebStandalone.sample_ws_active
    ⟨100, "Write report", none, 32400⟩ 33930 rfl (by norm_num)
  have h3 := c3_duration_formula.2.2 [EnhancedApp.sample_open_row] 10
    EnhancedApp.sample_open_row rfl (by norm_num [EnhancedApp.sample_open_row])
  have hr : pyRound2 ((33930 - 32400 : ℚ) / 60) = 51/2 := by
    norm_num [pyRound2, roundHalfEven]
  refine ⟨?_, ?_, h3⟩
  · rw [h1]
    simp [MainApp.sample_report, hr]
  · rw [h2]
    simp [WebStandalone.sample_ws_active, hr]

/-- C2 counterexample: in the web variant (`src/web_app.py` start handler)
the implicit close and the new start sample the clock separately. With the
close sampled at 10 and the start sampled at 11, the closed record for "A"
gets `end_time` 10 while "B" starts at 11 — not the same instant, refuting
the claim that A's `end_time` always equals B's `start_time`. -/
theorem c2_web_start_counterexample :
    (WebApp.start_task [EnhancedApp.sample_open_row] 2 "B" none 10 11).2 =
      [⟨1, "A", none, 0, some 10, some (1/6)⟩, ⟨2, "B", none, 11, none, none⟩] ∧
    (10 : ℚ) ≠ 11 := by
  constructor
  · rw [WebApp.start_task_active [EnhancedApp.sample_open_row] 2 "B" none 10 11
      EnhancedApp.sample_open_row rfl rfl]
    have hB : pyStrip "B" = "B" := rfl
    simp [EnhancedApp.db_add_task, EnhancedApp.db_end_task,
      EnhancedApp.sample_open_row, hB]
    norm_num
  · norm_num

/-- C2 (amended): cascading start. In the desktop variants the implicit
close and the new start share one `now()` sample, so A's recorded
`end_time` equals B's `start_time` exactly; in the web variant the handler
samples the clock once for the close (`t1`) and again for the new start
(`t2`), so A is closed at `t1` and B starts at `t2 ≥ t1` — the instants
may differ. In both, A is closed and B is left active. -/
theorem c2_cascading_start_amended :
    (∀ (s : MainApp.TrackerState) (a : String) (t0 : ℚ) (descB : String) (now : ℚ),
      s.current_task = some a → a.isEmpty = false → s.task_start_time = some t0 →
      (pyStrip descB).isEmpty = false →
      (MainApp.start_new_task s descB now true).records =
        s.records ++ [⟨a, t0, now, pyRound2 ((now - t0) / 60)⟩] ∧
      (MainApp.start_new_task s descB now true).current_task = some (pyStrip descB) ∧
      (MainApp.start_new_task s descB now true).task_start_time = some now) ∧
    (∀ (db : List EnhancedApp.DbTask) (new_id : ℕ) (descB : String)
      (cat : Option ℕ) (t1 t2 : ℚ) (cur : EnhancedApp.DbTask),
      EnhancedApp.db_get_last_incomplete_task db = some cur →
      (pyStrip descB).isEmpty = false → t1 ≤ t2 →
      (WebApp.start_task db new_id descB cat t1 t2).2 =
        EnhancedApp.db_add_task
          (EnhancedApp.db_end_task db cur.id t1 ((t1 - cur.start_time) / 60))
          new_id (pyStrip descB) cat t2) := by
  constructor
  · intro s a t0 descB now hc ha ht hne
    exact ⟨MainApp.start_new_task_records_active s a t0 descB now hc ha ht hne,
           (MainApp.start_new_task_fields s descB now true hne).1,
           (MainApp.start_new_task_fields s descB now true hne).2⟩
  · intro db new_id descB cat t1 t2 cur hcur hne hle
    rw [WebApp.start_task_active db new_id descB cat t1 t2 cur hcur hne]

/-- C2 witness: the amended statement instantiated — desktop: starting "B"
at time 5 over the active "A" started at 0 closes A with end time 5 and
starts B at 5; web: the concrete two-sample run closes A at 10 and starts
B at 11. -/
theorem c2_cascading_start_amended_witness :
    ((MainApp.start_new_task MainApp.sample_active "B" 5 true).records =
      MainApp.sample_active.records ++ [⟨"A", 0, 5, pyRound2 ((5 - 0) / 60)⟩] ∧
     (MainApp.start_new_task MainApp.sample_active "B" 5 true).current_task =
       some (pyStrip "B") ∧
     (MainApp.start_new_task MainApp.sample_active "B" 5 true).task_start_time =
       some 5) ∧
    (WebApp.start_task [EnhancedApp.sample_open_row] 2 "B" none 10 11).2 =
      EnhancedApp.db_add_task
        (EnhancedApp.db_end_task [EnhancedApp.sample_open_row]
          EnhancedApp.sample_open_row.id 10
          ((10 - EnhancedApp.sample_open_row.start_time) / 60))
        2 (pyStrip "B") none 11 :=
  ⟨c2_cascading_start_amended.1 MainApp.sample_active "A" 0 "B" 5 rfl rfl rfl rfl,
   c2_cascading_start_amended.2 [EnhancedApp.sample_open_row] 2 "B" none 10 11
     EnhancedApp.sample_open_row rfl rfl (by norm_num)⟩

/-- C5 counterexample: when the CSV write fails during a close of the
concrete active state (task "A" running since 0, closed at 10), the
`src/main.py` code clears `current_task` anyway and persists nothing — so
`current` is NOT left unchanged and the close is lost, refuting the claim
that on persistence failure the controller prefers leaving `current`
unchanged. -/
theorem c5_close_lost_counterexample :
    (MainApp.end_task MainApp.sample_active 10 false).current_task = none ∧
    (MainApp.end_task MainApp.sample_active 10 false).records = [] ∧
    MainApp.sample_active.current_task = some "A" := by
  obtain ⟨h1, -, h3, -, -, -⟩ :=
    MainApp.end_task_active MainApp.sample_active "A" 0 10 false rfl rfl rfl
  refine ⟨h1, ?_, rfl⟩
  rw [h3]
  simp [MainApp.sample_active]

/-- C5 (amended): on persistence failure during a close the error is
reported — an error dialog in `src/main.py`, a log line in
`src/main_enhanced.py` — but the close is not atomic: the current task is
cleared and the countdown disarmed regardless, so the failed sink keeps no
record of the closed task (`src/main.py` loses the row entirely;
`src/main_enhanced.py` leaves the database row open and keeps only the
fallback-CSV copy). -/
theorem c5_persistence_failure_amended :
    (∀ (s : MainApp.TrackerState) (desc : String) (t0 e : ℚ),
      s.current_task = some desc → desc.isEmpty = false →
      s.task_start_time = some t0 →
      (MainApp.end_task s e false).records = s.records ∧
      (MainApp.end_task s e false).msgs = s.msgs ++ [AppMsg.error_csv_write] ∧
      (MainApp.end_task s e false).current_task = none ∧
      (MainApp.end_task s e false).task_start_time = none ∧
      (MainApp.end_task s e false).auto_close_timer = none) ∧
    (∀ (s : EnhancedApp.EState) (desc : String) (t0 e : ℚ) (tid : ℕ),
      s.current_task = some desc → desc.isEmpty = false →
      s.task_start_time = some t0 → s.current_task_id = some tid →
      (EnhancedApp.end_task s e false).db = s.db ∧
      (EnhancedApp.end_task s e false).msgs =
        s.msgs ++ [AppMsg.error_db_end_task] ∧
      (EnhancedApp.end_task s e false).csv =
        s.csv ++ [⟨desc, s.current_category_id, t0, e, pyRound2 ((e - t0) / 60)⟩] ∧
      (EnhancedApp.end_task s e false).current_task = none ∧
      (EnhancedApp.end_task s e false).auto_close_timer = none) := by
  constructor
  · intro s desc t0 e hc hne ht
    obtain ⟨h1, h2, h3, h4, h5, -⟩ := MainApp.end_task_active s desc t0 e false hc hne ht
    refine ⟨?_, ?_, h1, h2, h5⟩
    · rw [h3]
      simp
    · rw [h4]
      simp
  · intro s desc t0 e tid hc hne ht hid
    obtain ⟨a1, -, -, -, a5, a6, a7, -, a9, -⟩ :=
      EnhancedApp.eend_task_active s desc t0 e false hc hne ht
    rw [hid] at a6 a7
    refine ⟨?_, ?_, a5, a1, a9⟩
    · rw [a6]
      simp
    · rw [a7]
      simp

/-- C5 witness: the amended statement instantiated at concrete failing
closes of the two variants. -/
theorem c5_persistence_failure_amended_witness :
    ((MainApp.end_task MainApp.sample_active 10 false).records =
       MainApp.sample_active.records ∧
     (MainApp.end_task MainApp.sample_active 10 false).msgs =
       MainApp.sample_active.msgs ++ [AppMsg.error_csv_write] ∧
     (MainApp.end_task MainApp.sample_active 10 false).current_task = none ∧
     (MainApp.end_task MainApp.sample_active 10 false).task_start_time = none ∧
     (MainApp.end_task MainApp.sample_active 10 false).auto_close_timer = none) ∧
    ((EnhancedApp.end_task EnhancedApp.sample_eactive 10 false).db =
       EnhancedApp.sample_eactive.db ∧
     (EnhancedApp.end_task EnhancedApp.sample_eactive 10 false).msgs =
       EnhancedApp.sample_eactive.msgs ++ [AppMsg.error_db_end_task] ∧
     (EnhancedApp.end_task EnhancedApp.sample_eactive 10 false).csv =
       EnhancedApp.sample_eactive.csv ++
         [⟨"A", EnhancedApp.sample_eactive.current_category_id, 0, 10,
           pyRound2 ((10 - 0) / 60)⟩] ∧
     (EnhancedApp.end_task EnhancedApp.sample_eactive 10 false).current_task = none ∧
     (EnhancedApp.end_task EnhancedApp.sample_eactive 10 false).auto_close_timer
       = none) :=
  ⟨c5_persistence_failure_amended.1 MainApp.sample_active "A" 0 10 rfl rfl rfl,
   c5_persistence_failure_amended.2 EnhancedApp.sample_eactive "A" 0 10 1
     rfl rfl rfl rfl⟩

/-- C4 counterexample: over a database whose open row "A" started at 0,
resuming at time 3600 (elapsed 3600 < 7200) arms a countdown that fires at
3600 + 7200 = 10800 — a full fresh window — not at the claimed remaining
time (which would fire at start + 7200 = 7200 ≠ 10800); and at time 7200
(elapsed exactly 7200) the claim requires closing the task with end time
start + 7200, but the state is completely unchanged: the row stays open. -/
theorem c4_resume_counterexample :
    ((EnhancedApp.check_resumable_task EnhancedApp.sample_resume_state
        3600).live_timers.map fun t => t.fires_at) = [10800] ∧
    (10800 : ℚ) ≠ 0 + 7200 ∧
    EnhancedApp.check_resumable_task EnhancedApp.sample_resume_state 7200 =
      EnhancedApp.sample_resume_state := by
  refine ⟨?_, by norm_num, ?_⟩
  · rw [EnhancedApp.check_resumable_eq EnhancedApp.sample_resume_state 3600
      EnhancedApp.sample_open_row rfl]
    rw [if_pos (by norm_num [EnhancedApp.sample_open_row])]
    obtain ⟨j, hj, hl⟩ := EnhancedApp.resume_task_timer
      EnhancedApp.sample_resume_state EnhancedApp.sample_open_row 3600 rfl rfl
    rw [hl]
    norm_num
  · rw [EnhancedApp.check_resumable_eq EnhancedApp.sample_resume_state 7200
      EnhancedApp.sample_open_row rfl]
    rw [if_neg (by norm_num [EnhancedApp.sample_open_row])]

/-- C4 (amended): resume in the database-backed variant. On process start,
if the last persisted task has no end time and `now - start_time < 7200`,
it is adopted as current (description, row id, and original start time) —
but its countdown is rearmed for a FULL fresh 7200-second window, firing at
`now + 7200`, not for the remaining `7200 - elapsed`; and if
`now - start_time ≥ 7200`, the stale task is not closed (with a synthetic
end time or otherwise): the controller state and database are left
entirely unchanged. -/
theorem c4_resume_amended (s : EnhancedApp.EState) (r : EnhancedApp.DbTask)
    (now : ℚ) (hinv : EnhancedApp.ETimerInv s)
    (hlast : EnhancedApp.db_get_last_incomplete_task s.db = some r)
    (hne : r.task_description.isEmpty = false) :
    (now - r.start_time < 7200 →
      (EnhancedApp.check_resumable_task s now).current_task =
        some r.task_description ∧
      (EnhancedApp.check_resumable_task s now).current_task_id = some r.id ∧
      (EnhancedApp.check_resumable_task s now).task_start_time =
        some r.start_time ∧
      (EnhancedApp.check_resumable_task s now).db = s.db ∧
      ((EnhancedApp.check_resumable_task s now).live_timers.map
        fun t => t.fires_at) = [now + 7200]) ∧
    (7200 ≤ now - r.start_time →
      EnhancedApp.check_resumable_task s now = s) := by
  rw [EnhancedApp.check_resumable_eq s now r hlast]
  constructor
  · intro hlt
    rw [if_pos hlt]
    obtain ⟨f1, f2, f3, -, f5, -⟩ := EnhancedApp.resume_task_fields s r now
    obtain ⟨j, hj, hl⟩ := EnhancedApp.resume_task_timer s r now hinv hne
    refine ⟨f1, f2, f3, f5, ?_⟩
    rw [hl]
    rfl
  · intro hge
    rw [if_neg (not_lt.mpr hge)]

/-- C4 witness: the amended statement exercised concretely — resuming the
open row "A" (started at 0) at time 3600 adopts it and arms a countdown
firing at 3600 + 7200, while checking at time 7200 changes nothing. -/
theorem c4_resume_amended_witness :
    ((EnhancedApp.check_resumable_task EnhancedApp.sample_resume_state
        3600).current_task = some "A" ∧
     (EnhancedApp.check_resumable_task EnhancedApp.sample_resume_state
        3600).current_task_id = some 1 ∧
     (EnhancedApp.check_resumable_task EnhancedApp.sample_resume_state
        3600).task_start_time = some 0 ∧
     (EnhancedApp.check_resumable_task EnhancedApp.sample_resume_state
        3600).db = EnhancedApp.sample_resume_state.db ∧
     ((EnhancedApp.check_resumable_task EnhancedApp.sample_resume_state
        3600).live_timers.map fun t => t.fires_at) = [3600 + 7200]) ∧
    EnhancedApp.check_resumable_task EnhancedApp.sample_resume_state 7200 =
      EnhancedApp.sample_resume_state :=
  ⟨(c4_resume_amended EnhancedApp.sample_resume_state EnhancedApp.sample_open_row
      3600 rfl rfl rfl).1 (by norm_num [EnhancedApp.sample_open_row]),
   (c4_resume_amended EnhancedApp.sample_resume_state EnhancedApp.sample_open_row
      7200 rfl rfl rfl).2 (by norm_num [EnhancedApp.sample_open_row])⟩

/-- C6: auto-close timing. A successful start at `t0` arms the single
outstanding countdown to fire at `t0 + 7200`; if it fires then (with no
intervening stop or start), the controller transitions to idle with the
countdown gone, and the closed record carries `end_time = t0 + 7200` and
duration 120 minutes. -/
theorem c6_auto_close_timing (s : MainApp.TrackerState) (desc : String) (t0 : ℚ)
    (hinv : MainApp.TimerInv s) (hne : (pyStrip desc).isEmpty = false) :
    ((MainApp.start_new_task s desc t0 true).live_timers.map
      fun t => t.fires_at) = [t0 + 7200] ∧
    (MainApp.auto_close_task (MainApp.start_new_task s desc t0 true)
        (t0 + 7200) true).current_task = none ∧
    (MainApp.auto_close_task (MainApp.start_new_task s desc t0 true)
        (t0 + 7200) true).live_timers = [] ∧
    (MainApp.auto_close_task (MainApp.start_new_task s desc t0 true)
        (t0 + 7200) true).records =
      (MainApp.start_new_task s desc t0 true).records ++
        [⟨pyStrip desc, t0, t0 + 7200, 120⟩] ∧
    (MainApp.auto_close_task (MainApp.start_new_task s desc t0 true)
        (t0 + 7200) true).msgs =
      (MainApp.start_new_task s desc t0 true).msgs ++ [AppMsg.info_auto_closed] := by
  obtain ⟨j, hj, hl⟩ := MainApp.start_new_task_timer s desc t0 true hinv hne
  obtain ⟨hcur, hstart⟩ := MainApp.start_new_task_fields s desc t0 true hne
  set s' := MainApp.start_new_task s desc t0 true with hs'
  have hd120 : pyRound2 ((t0 + 7200 - t0) / 60) = 120 := by
    have hsub : (t0 + 7200 - t0 : ℚ) = 7200 := by ring
    rw [hsub]
    norm_num [pyRound2, roundHalfEven]
  obtain ⟨e1, e2, e3, e4, e5, e6⟩ :=
    MainApp.end_task_active s' (pyStrip desc) t0 (t0 + 7200) true hcur hne hstart
  have hac : MainApp.auto_close_task s' (t0 + 7200) true =
      { MainApp.end_task s' (t0 + 7200) true with
        msgs := (MainApp.end_task s' (t0 + 7200) true).msgs ++
          [AppMsg.info_auto_closed] } := by
    unfold MainApp.auto_close_task
    rw [hcur, MainApp.strTruthy_some hne]
    simp
  refine ⟨?_, ?_, ?_, ?_, ?_⟩
  · rw [hl]
    rfl
  · rw [hac]
    simpa using e1
  · rw [hac]
    show (MainApp.end_task s' (t0 + 7200) true).live_timers = []
    rw [hj] at e6
    rw [e6, hl]
    exact MainApp.filter_singleton_ne j (t0 + 7200)
  · rw [hac]
    show (MainApp.end_task s' (t0 + 7200) true).records = _
    rw [e3, hd120]
    simp
  · rw [hac]
    show (MainApp.end_task s' (t0 + 7200) true).msgs ++ [AppMsg.info_auto_closed] = _
    rw [e4]
    simp

/-- C6 witness: the statement instantiated at a fresh controller, task "A"
started at time 0 — the countdown fires at 7200, closing "A" with end time
7200 and duration 120 minutes. -/
theorem c6_auto_close_timing_witness :
    ((MainApp.start_new_task MainApp.init "A" 0 true).live_timers.map
      fun t => t.fires_at) = [0 + 7200] ∧
    (MainApp.auto_close_task (MainApp.start_new_task MainApp.init "A" 0 true)
        (0 + 7200) true).current_task = none ∧
    (MainApp.auto_close_task (MainApp.start_new_task MainApp.init "A" 0 true)
        (0 + 7200) true).live_timers = [] ∧
    (MainApp.auto_close_task (MainApp.start_new_task MainApp.init "A" 0 true)
        (0 + 7200) true).records =
      (MainApp.start_new_task MainApp.init "A" 0 true).records ++
        [⟨pyStrip "A", 0, 0 + 7200, 120⟩] ∧
    (MainApp.auto_close_task (MainApp.start_new_task MainApp.init "A" 0 true)
        (0 + 7200) true).msgs =
      (MainApp.start_new_task MainApp.init "A" 0 true).msgs ++
        [AppMsg.info_auto_closed] :=
  c6_auto_close_timing MainApp.init "A" 0 MainApp.timerInv_init rfl
